import Mathlib

/-!
Verification of the websocket connection management and REST facade of
python-openevse-http.

The development shallowly embeds the relevant parts of the library:

* `openevsehttp/websocket.py` — class `OpenEVSEWebsocket` (state setter,
  `running`, `listen`, `keepalive`); the retry-ceiling test there is
  `failed_attempts > MAX_FAILED_ATTEMPTS`.
* `openevsehttp/__init__.py` — a legacy copy of the same class whose
  retry-ceiling test is `failed_attempts >= MAX_FAILED_ATTEMPTS`, plus the
  legacy `OpenEVSE` facade (`set_charge_mode`, `divert_mode`, the
  temperature properties).
* `openevsehttp/__main__.py` — the current `OpenEVSE` facade
  (`_update_status` with its `UPDATE_TRIGGERS` resync logic).

Python dictionaries are embedded as association lists with first-match
lookup; Python scalar values as `PyVal`; exceptions as `Except PyError`.
Side effects (callback invocations, `asyncio.sleep`, HTTP requests) are
embedded as explicit traces of actions returned alongside the new state.
-/

/-- A Python scalar value as stored in status/config dictionaries and
websocket payloads. Floats are embedded as rationals. -/
inductive PyVal where
  | none
  | int (n : Int)
  | float (q : Rat)
  | str (s : String)
  | bool (b : Bool)
deriving DecidableEq, Repr

/-- A Python `dict` with string keys, embedded as an association list.
All operations below use first-match semantics; actual Python dicts have
unique keys, which theorems assume through `NodupKeys` where it matters. -/
abbrev Dict := List (String × PyVal)

/-- `d[k]` as a total lookup: `some` of the first binding of `k`, else `none`. -/
def lookupD : Dict → String → Option PyVal
  | [], _ => Option.none
  | (k, v) :: t, key => if k = key then some v else lookupD t key

/-- `k in d` for a Python dict. -/
def containsKey (d : Dict) (key : String) : Bool :=
  (lookupD d key).isSome

/-- `d[k] = v`: replace the first binding of `k` in place, else append. -/
def insertD : Dict → String → PyVal → Dict
  | [], key, v => [(key, v)]
  | (k, w) :: t, key, v =>
      if k = key then (key, v) :: t else (k, w) :: insertD t key v

/-- `d.pop(k)`'s removal effect: drop every binding of `k`. -/
def eraseD (d : Dict) (key : String) : Dict :=
  d.filter (fun e => e.1 != key)

/-- `d1.update(d2)`: fold the bindings of `d2` into `d1` in order. -/
def updateD : Dict → Dict → Dict
  | d, [] => d
  | d, (k, v) :: t => updateD (insertD d k v) t

/-- The keys of a dict are pairwise distinct (always true of Python dicts). -/
def NodupKeys (d : Dict) : Prop :=
  (d.map Prod.fst).Nodup

instance (d : Dict) : Decidable (NodupKeys d) := by
  unfold NodupKeys
  infer_instance

/-! ## Websocket connection state machine

Embeds `OpenEVSEWebsocket` from `openevsehttp/websocket.py` (functions
suffixed with nothing) and its legacy copy in `openevsehttp/__init__.py`
(functions suffixed `Legacy`). The two copies differ only in the
retry-ceiling comparison (`>` vs `>=`), in the error objects stored for
non-401 response errors and unexpected exceptions, and in that only the
`websocket.py` copy records pong timestamps and has `keepalive`. -/

/-- The four connection states (`STATE_*` string constants in the source). -/
inductive WsState where
  | starting
  | connected
  | disconnected
  | stopped
deriving DecidableEq, Repr

def MAX_FAILED_ATTEMPTS : Nat := 5

def ERROR_AUTH_FAILURE : String := "Authorization failure"

def ERROR_TOO_MANY_RETRIES : String := "Too many retries"

def ERROR_UNKNOWN : String := "Unknown"

def ERROR_PING_TIMEOUT : String := "No pong reply"

def SIGNAL_CONNECTION_STATE : String := "websocket_state"

/-- The value stored in `self._error_reason`: one of the string constants,
or a caught exception object (`ClientResponseError` with its HTTP status,
or a generic exception). -/
inductive Reason where
  | authFailure
  | tooManyRetries
  | pingTimeout
  | unknown
  | respErrorObj (status : Nat)
  | excObj
deriving DecidableEq, Repr

/-- Which string constant a `Reason` renders as; exception objects carry
no fixed string. -/
def reasonStr : Reason → Option String
  | Reason.authFailure => some ERROR_AUTH_FAILURE
  | Reason.tooManyRetries => some ERROR_TOO_MANY_RETRIES
  | Reason.pingTimeout => some ERROR_PING_TIMEOUT
  | Reason.unknown => some ERROR_UNKNOWN
  | Reason.respErrorObj _ => Option.none
  | Reason.excObj => Option.none

/-- One observable side effect of the connection object: a state-change
notification through the owner callback, a data delivery through the same
callback, an `asyncio.sleep`, or a ping frame sent on the transport. -/
inductive Act where
  | notify (sig : String) (st : WsState) (err : Option Reason)
  | deliver (msgtype : String) (payload : Dict)
  | sleep (secs : Rat)
  | sendPing
deriving DecidableEq, Repr

/-- The mutable fields of `OpenEVSEWebsocket` relevant to the claims.
Timestamps (`datetime.datetime.now()` values) are embedded as integers. -/
structure WsConn where
  state : Option WsState
  failed_attempts : Nat
  error_reason : Option Reason
  ping : Option Int
  pong : Option Int
deriving DecidableEq, Repr

/-- The freshly constructed connection object (`__init__`). -/
def freshConn : WsConn :=
  { state := Option.none, failed_attempts := 0, error_reason := Option.none,
    ping := Option.none, pong := Option.none }

/-- The `state` property setter: store the new state, invoke the callback
with `(SIGNAL_CONNECTION_STATE, value, self._error_reason)`, then clear
the stored error reason. Identical in both copies of the class. -/
def setState (c : WsConn) (v : WsState) : WsConn × List Act :=
  ({ c with state := some v, error_reason := Option.none },
   [Act.notify SIGNAL_CONNECTION_STATE v c.error_reason])

/-- An inbound websocket frame (`aiohttp.WSMsgType` cases handled). -/
inductive WsMsg where
  | text (payload : Dict)
  | closed
  | wsError
deriving DecidableEq, Repr

/-- The `async for message in ws_client` loop of `websocket.py`:
break on `STATE_STOPPED`, deliver decoded TEXT payloads as
`("data", msg, None)`, record a pong timestamp when the payload has a
`pong` key, break on CLOSED and ERROR frames. -/
def msgLoop (now : Int) : WsConn → List WsMsg → WsConn × List Act
  | c, [] => (c, [])
  | c, m :: rest =>
      if c.state = some WsState.stopped then (c, [])
      else
        match m with
        | WsMsg.text payload =>
            let c1 := if containsKey payload "pong" then { c with pong := some now } else c
            let r := msgLoop now c1 rest
            (r.1, Act.deliver "data" payload :: r.2)
        | WsMsg.closed => (c, [])
        | WsMsg.wsError => (c, [])

/-- The message loop of the legacy copy in `__init__.py`: the same but
with no pong handling. -/
def msgLoopLegacy : WsConn → List WsMsg → WsConn × List Act
  | c, [] => (c, [])
  | c, m :: rest =>
      if c.state = some WsState.stopped then (c, [])
      else
        match m with
        | WsMsg.text payload =>
            let r := msgLoopLegacy c rest
            (r.1, Act.deliver "data" payload :: r.2)
        | WsMsg.closed => (c, [])
        | WsMsg.wsError => (c, [])

/-- Python `2 ** e` for an integer exponent: an integer power for
`e >= 0` and a float (here: rational) for `e < 0`. -/
def pyPow2 (e : Int) : Rat :=
  if 0 ≤ e then ((2 : Rat) ^ e.toNat) else 1 / (2 : Rat) ^ (-e).toNat

/-- `except aiohttp.ClientResponseError` handler of `websocket.py`
`running`: store `ERROR_AUTH_FAILURE` on a 401, otherwise the error
object itself, then set the state to stopped. -/
def respErrorBranch (status : Nat) (c : WsConn) : WsConn × List Act :=
  if status = 401 then
    setState { c with error_reason := some Reason.authFailure } WsState.stopped
  else
    setState { c with error_reason := some (Reason.respErrorObj status) } WsState.stopped

/-- The legacy handler in `__init__.py` stores `ERROR_UNKNOWN` instead of
the error object for non-401 statuses. -/
def respErrorBranchLegacy (status : Nat) (c : WsConn) : WsConn × List Act :=
  if status = 401 then
    setState { c with error_reason := some Reason.authFailure } WsState.stopped
  else
    setState { c with error_reason := some Reason.unknown } WsState.stopped

/-- `except (ClientConnectionError, asyncio.TimeoutError)` handler of
`websocket.py` `running`: the ceiling test is
`self.failed_attempts > MAX_FAILED_ATTEMPTS`; otherwise, when not
stopped, compute `min(2 ** (failed_attempts - 1) * 30, 300)`, increment
the counter, transition to disconnected and sleep for the delay. -/
def connErrorBranch (c : WsConn) : WsConn × List Act :=
  if MAX_FAILED_ATTEMPTS < c.failed_attempts then
    setState { c with error_reason := some Reason.tooManyRetries } WsState.stopped
  else if c.state ≠ some WsState.stopped then
    let retry_delay := min (pyPow2 ((c.failed_attempts : Int) - 1) * 30) 300
    let r := setState { c with failed_attempts := c.failed_attempts + 1 } WsState.disconnected
    (r.1, r.2 ++ [Act.sleep retry_delay])
  else (c, [])

/-- The legacy handler in `__init__.py` differs only in the ceiling test:
`self.failed_attempts >= MAX_FAILED_ATTEMPTS`. -/
def connErrorBranchLegacy (c : WsConn) : WsConn × List Act :=
  if MAX_FAILED_ATTEMPTS ≤ c.failed_attempts then
    setState { c with error_reason := some Reason.tooManyRetries } WsState.stopped
  else if c.state ≠ some WsState.stopped then
    let retry_delay := min (pyPow2 ((c.failed_attempts : Int) - 1) * 30) 300
    let r := setState { c with failed_attempts := c.failed_attempts + 1 } WsState.disconnected
    (r.1, r.2 ++ [Act.sleep retry_delay])
  else (c, [])

/-- `except Exception` handler of `websocket.py` `running`: when not
already stopped, store the error object and stop. -/
def otherExcBranch (c : WsConn) : WsConn × List Act :=
  if c.state ≠ some WsState.stopped then
    setState { c with error_reason := some Reason.excObj } WsState.stopped
  else (c, [])

/-- The legacy handler in `__init__.py` stores `ERROR_UNKNOWN` instead of
the error object. -/
def otherExcBranchLegacy (c : WsConn) : WsConn × List Act :=
  if c.state ≠ some WsState.stopped then
    setState { c with error_reason := some Reason.unknown } WsState.stopped
  else (c, [])

/-- The `else` clause of `running`, identical in both copies: when the
receive loop exits without exception and the state is not stopped,
transition to disconnected and sleep 5 seconds. -/
def exitBranch (c : WsConn) : WsConn × List Act :=
  if c.state ≠ some WsState.stopped then
    let r := setState c WsState.disconnected
    (r.1, r.2 ++ [Act.sleep 5])
  else (c, [])

/-- How one `ws_connect` attempt resolves: a session delivering a frame
stream, a `ClientResponseError` with an HTTP status, a
`ClientConnectionError`/`TimeoutError`, or some other exception. -/
inductive ConnOutcome where
  | session (msgs : List WsMsg)
  | respError (status : Nat)
  | connError
  | otherExc
deriving DecidableEq, Repr

/-- `OpenEVSEWebsocket.running` of `websocket.py`: set the state to
starting, attempt the connection; on success set connected, reset the
failure counter, run the receive loop and fall through to the `else`
clause; on each exception run the corresponding handler. -/
def running (now : Int) (c : WsConn) (o : ConnOutcome) : WsConn × List Act :=
  let r0 := setState c WsState.starting
  match o with
  | ConnOutcome.session msgs =>
      let r1 := setState r0.1 WsState.connected
      let r2 := msgLoop now { r1.1 with failed_attempts := 0 } msgs
      let r3 := exitBranch r2.1
      (r3.1, r0.2 ++ r1.2 ++ r2.2 ++ r3.2)
  | ConnOutcome.respError status =>
      let r1 := respErrorBranch status r0.1
      (r1.1, r0.2 ++ r1.2)
  | ConnOutcome.connError =>
      let r1 := connErrorBranch r0.1
      (r1.1, r0.2 ++ r1.2)
  | ConnOutcome.otherExc =>
      let r1 := otherExcBranch r0.1
      (r1.1, r0.2 ++ r1.2)

/-- `OpenEVSEWebsocket.running` of the legacy copy in `__init__.py`. -/
def runningLegacy (c : WsConn) (o : ConnOutcome) : WsConn × List Act :=
  let r0 := setState c WsState.starting
  match o with
  | ConnOutcome.session msgs =>
      let r1 := setState r0.1 WsState.connected
      let r2 := msgLoopLegacy { r1.1 with failed_attempts := 0 } msgs
      let r3 := exitBranch r2.1
      (r3.1, r0.2 ++ r1.2 ++ r2.2 ++ r3.2)
  | ConnOutcome.respError status =>
      let r1 := respErrorBranchLegacy status r0.1
      (r1.1, r0.2 ++ r1.2)
  | ConnOutcome.connError =>
      let r1 := connErrorBranchLegacy r0.1
      (r1.1, r0.2 ++ r1.2)
  | ConnOutcome.otherExc =>
      let r1 := otherExcBranchLegacy r0.1
      (r1.1, r0.2 ++ r1.2)

/-- The `while self.state != STATE_STOPPED: await self.running()` loop of
`listen`, driven by a finite script of connection outcomes (one outcome
consumed per `running` call). -/
def listenGo (run : WsConn → ConnOutcome → WsConn × List Act) :
    WsConn → List ConnOutcome → WsConn × List Act
  | c, [] => (c, [])
  | c, o :: rest =>
      if c.state = some WsState.stopped then (c, [])
      else
        let r := run c o
        let r2 := listenGo run r.1 rest
        (r2.1, r.2 ++ r2.2)

/-- `OpenEVSEWebsocket.listen`: reset `failed_attempts` to 0, then loop
`running` until the state is stopped. -/
def listenStart (run : WsConn → ConnOutcome → WsConn × List Act)
    (c : WsConn) (outs : List ConnOutcome) : WsConn × List Act :=
  listenGo run { c with failed_attempts := 0 } outs

/-- The backoff sleeps appearing in a trace, in order. -/
def delaysOf (acts : List Act) : List Rat :=
  acts.filterMap (fun a =>
    match a with
    | Act.sleep q => some q
    | _ => Option.none)

/-! ## Keepalive (`websocket.py` only) -/

/-- A Python exception kind raised by the embedded code. -/
inductive PyError where
  | typeError
  | keyError
  | valueError
  | unknownError
deriving DecidableEq, Repr

/-- The operands that appear in `keepalive`'s comparison: a
`datetime.timedelta` (difference of two `datetime.datetime`s) and an
`int` literal. -/
inductive PyScalar where
  | int (n : Int)
  | td (n : Int)
deriving DecidableEq, Repr

/-- Python 3 `<`: `int < int` and `timedelta < timedelta` compare
numerically; comparing a `timedelta` with an `int` (in either order)
raises `TypeError`, because neither operand's comparison accepts the
other's type and there is no implicit coercion. -/
def pyLt : PyScalar → PyScalar → Except PyError Bool
  | PyScalar.int a, PyScalar.int b => Except.ok (decide (a < b))
  | PyScalar.td a, PyScalar.td b => Except.ok (decide (a < b))
  | _, _ => Except.error PyError.typeError

/-- How `self._client.send_json(data)` resolves inside `keepalive`'s
`try` block. -/
inductive SendOutcome where
  | ok
  | typeError
  | valueError
  | runtimeError
  | otherExc
deriving DecidableEq, Repr

/-- `OpenEVSEWebsocket.keepalive` of `websocket.py`. When both `_ping`
and `_pong` are set it computes `time_delta = self._pong - self._ping`
(a `timedelta`) and evaluates `time_delta < 0`; an exception raised by
that comparison is outside the `try` block and propagates out of
`keepalive`. Otherwise it sends the ping frame, recording a new `_ping`
timestamp on success; `TypeError`/`ValueError` from the send are only
logged, `RuntimeError` and any other exception transition the state to
disconnected. -/
def keepalive (now : Int) (send : SendOutcome) (c : WsConn) :
    Except PyError (WsConn × List Act) :=
  let step1 : Except PyError (WsConn × List Act) :=
    match c.ping, c.pong with
    | some p, some q =>
        match pyLt (PyScalar.td (q - p)) (PyScalar.int 0) with
        | Except.error e => Except.error e
        | Except.ok true =>
            Except.ok (setState { c with error_reason := some Reason.pingTimeout }
              WsState.disconnected)
        | Except.ok false => Except.ok (c, [])
    | _, _ => Except.ok (c, [])
  match step1 with
  | Except.error e => Except.error e
  | Except.ok (c1, a1) =>
      match send with
      | SendOutcome.ok => Except.ok ({ c1 with ping := some now }, a1 ++ [Act.sendPing])
      | SendOutcome.typeError => Except.ok (c1, a1 ++ [Act.sendPing])
      | SendOutcome.valueError => Except.ok (c1, a1 ++ [Act.sendPing])
      | SendOutcome.runtimeError =>
          let r := setState c1 WsState.disconnected
          (Except.ok (r.1, a1 ++ [Act.sendPing] ++ r.2))
      | SendOutcome.otherExc =>
          let r := setState c1 WsState.disconnected
          (Except.ok (r.1, a1 ++ [Act.sendPing] ++ r.2))

/-! ## The owner facade (`__main__.py`) -/

/-- `UPDATE_TRIGGERS` from `__main__.py`: payload keys that trigger a
full REST resync before merging. -/
def UPDATE_TRIGGERS : List String :=
  ["config_version", "claims_version", "override_version",
   "schedule_version", "schedule_plan_version", "limit_version"]

/-- An observable side effect of `OpenEVSE._update_status`: a full REST
resync (`await self.update()`), the shallow merge of a payload into the
cached status (`self._status.update(data)`), or the owner's registered
callback being invoked. -/
inductive OwnerAct where
  | resync
  | merge (d : Dict)
  | ownerCallback
deriving DecidableEq, Repr

/-- The owner state relevant to `_update_status`: the cached status
mapping, the `_ws_listening` flag, and whether a callback is registered. -/
structure Owner where
  status : Dict
  ws_listening : Bool
  hasCallback : Bool
deriving DecidableEq, Repr

/-- The `wh` → `watthour` rename at the top of the `"data"` branch:
`if "wh" in keys: data["watthour"] = data.pop("wh")`. -/
def renameWh (data : Dict) : Dict :=
  match lookupD data "wh" with
  | some v => insertD (eraseD data "wh") "watthour" v
  | Option.none => data

/-- A message delivered to the owner's callback `_update_status`:
either a connection-state signal (msgtype `SIGNAL_CONNECTION_STATE`,
with the state as data and an optional error reason) or a data payload
(msgtype `"data"`). -/
inductive PushMsg where
  | connState (st : WsState) (error : Option Reason)
  | data (payload : Dict)
deriving DecidableEq, Repr

/-- `OpenEVSE._update_status` of `__main__.py`. The state-signal branch
maintains `_ws_listening` (a stopped signal is acted on only when it
carries an error). The `"data"` branch renames `wh` to `watthour`,
issues a full resync (`await self.update()`) when any `UPDATE_TRIGGERS`
key is present, shallow-merges the payload into the cached status, and
finally invokes the registered owner callback if any. The effect of the
resync on the cached status is abstracted as the function `resync`. -/
def update_status (resync : Dict → Dict) (ow : Owner) :
    PushMsg → Owner × List OwnerAct
  | PushMsg.connState st err =>
      match st with
      | WsState.connected => ({ ow with ws_listening := true }, [])
      | WsState.disconnected => ({ ow with ws_listening := false }, [])
      | WsState.stopped =>
          if err.isSome then ({ ow with ws_listening := false }, []) else (ow, [])
      | WsState.starting => (ow, [])
  | PushMsg.data payload =>
      let payload := renameWh payload
      let r1 : Dict × List OwnerAct :=
        if UPDATE_TRIGGERS.any (fun k => containsKey payload k) then
          (resync ow.status, [OwnerAct.resync])
        else (ow.status, [])
      let newStatus := updateD r1.1 payload
      let a3 : List OwnerAct := if ow.hasCallback then [OwnerAct.ownerCallback] else []
      ({ ow with status := newStatus },
       r1.2 ++ [OwnerAct.merge payload] ++ a3)

/-! ## Legacy facade functions (`__init__.py`) -/

/-- An HTTP request issued through `process_request`. -/
inductive HttpReq where
  | post (url : String) (data : Dict)
deriving DecidableEq, Repr

/-- `OpenEVSE.set_charge_mode` of `__init__.py`. The validation is the
verbatim condition `mode != "fast" or mode != "eco"`; only when it is
false does the function POST to `/config` and inspect the response. The
returned list is the trace of HTTP requests issued. -/
def set_charge_mode (url : String) (mode : String) (response : Dict) :
    List HttpReq × Except PyError Unit :=
  if mode ≠ "fast" ∨ mode ≠ "eco" then
    ([], Except.error PyError.valueError)
  else
    let req := HttpReq.post (url ++ "config") [("charge_mode", PyVal.str mode)]
    match lookupD response "msg" with
    | some m =>
        if m = PyVal.str "done" then ([req], Except.ok ())
        else ([req], Except.error PyError.unknownError)
    | Option.none => ([req], Except.error PyError.keyError)

/-- `OpenEVSE.divert_mode` of `__init__.py`. The validation is the
verbatim condition `mode != "Normal" or mode != "Eco"`. -/
def divert_mode (url : String) (mode : String) (response : Dict) :
    List HttpReq × Except PyError Unit :=
  if mode ≠ "Normal" ∨ mode ≠ "Eco" then
    ([], Except.error PyError.valueError)
  else
    let value : Int := if mode = "Normal" then 1 else 2
    let req := HttpReq.post (url ++ "divertmode") [("divertmode", PyVal.int value)]
    match lookupD response "msg" with
    | some m =>
        if m = PyVal.str "done" then ([req], Except.ok ())
        else ([req], Except.error PyError.unknownError)
    | Option.none => ([req], Except.error PyError.keyError)

/-! ## Temperature properties (`__init__.py`; `__main__.py` is
identical on these) -/

/-- Python truthiness of the embedded scalar values. -/
def pyTruthy : PyVal → Bool
  | PyVal.none => false
  | PyVal.int n => decide (n ≠ 0)
  | PyVal.float q => decide (q ≠ 0)
  | PyVal.str s => decide (s ≠ "")
  | PyVal.bool b => b

/-- Python `v / 10`: true division, yielding a float (here: rational);
a `TypeError` for non-numeric operands. Booleans divide as 0 or 1. -/
def pyDiv10 : PyVal → Except PyError Rat
  | PyVal.int n => Except.ok ((n : Rat) / 10)
  | PyVal.float q => Except.ok (q / 10)
  | PyVal.bool b => Except.ok ((if b then (1 : Rat) else 0) / 10)
  | _ => Except.error PyError.typeError

/-- The `else` arm of `ambient_temperature`: `self._status["temp1"] / 10`
(a `KeyError` when `temp1` is absent). -/
def ambientFallback (st : Dict) : Except PyError (Option Rat) :=
  match lookupD st "temp1" with
  | some v => (pyDiv10 v).map some
  | Option.none => Except.error PyError.keyError

/-- `OpenEVSE.ambient_temperature`:
`if "temp" in self._status and self._status["temp"]: temp = ... / 10
else: temp = self._status["temp1"] / 10`. -/
def ambient_temperature (st : Dict) : Except PyError (Option Rat) :=
  match lookupD st "temp" with
  | some v => if pyTruthy v then (pyDiv10 v).map some else ambientFallback st
  | Option.none => ambientFallback st

/-- `OpenEVSE.rtc_temperature`:
`temp = self._status["temp2"] if self._status["temp2"] else None`,
then `temp / 10` when not `None`, else `None`. -/
def rtc_temperature (st : Dict) : Except PyError (Option Rat) :=
  match lookupD st "temp2" with
  | some v => if pyTruthy v then (pyDiv10 v).map some else Except.ok Option.none
  | Option.none => Except.error PyError.keyError

/-- `OpenEVSE.ir_temperature`: as `rtc_temperature` but on `temp3`. -/
def ir_temperature (st : Dict) : Except PyError (Option Rat) :=
  match lookupD st "temp3" with
  | some v => if pyTruthy v then (pyDiv10 v).map some else Except.ok Option.none
  | Option.none => Except.error PyError.keyError

/-- The cached status mapping at the moment `self._status.update(data)`
runs in the `"data"` branch of `_update_status`: the resynced status when
a trigger key is present, the existing cached status otherwise. -/
def preMergeStatus (resync : Dict → Dict) (ow : Owner) (payload : Dict) : Dict :=
  if UPDATE_TRIGGERS.any (fun k => containsKey (renameWh payload) k) then
    resync ow.status
  else ow.status

/-! ## Theorems -/

theorem lookupD_insertD (d : Dict) (key : String) (v : PyVal) (k : String) :
    lookupD (insertD d key v) k = if k = key then some v else lookupD d k := by
  induction d with
  | nil =>
      rcases eq_or_ne k key with h | h
      · simp [insertD, lookupD, h]
      · simp [insertD, lookupD, h, h.symm]
  | cons e t ih =>
      obtain ⟨a, b⟩ := e
      by_cases ha : a = key
      · subst ha
        rcases eq_or_ne k a with h | h
        · simp [insertD, lookupD, h]
        · simp [insertD, lookupD, h, h.symm]
      · rcases eq_or_ne k a with h | h
        · simp [insertD, lookupD, ha, h, h ▸ ha, fun hc : k = key => (h ▸ ha) hc]
        · simp [insertD, lookupD, ha, h.symm, ih]

theorem lookupD_eraseD (d : Dict) (key : String) (k : String) :
    lookupD (eraseD d key) k = if k = key then Option.none else lookupD d k := by
  induction d with
  | nil => simp [eraseD, lookupD]
  | cons e t ih =>
      obtain ⟨a, b⟩ := e
      by_cases ha : a = key
      · subst ha
        rcases eq_or_ne k a with h | h
        · simpa [eraseD, lookupD, h] using ih
        · simpa [eraseD, lookupD, h, h.symm] using ih
      · rcases eq_or_ne k a with h | h
        · subst h
          simp [eraseD, lookupD, ha, fun hc : k = key => ha hc]
        · simpa [eraseD, lookupD, ha, h.symm] using ih

theorem lookupD_eq_none_of_not_mem (d : Dict) (k : String)
    (h : k ∉ d.map Prod.fst) : lookupD d k = Option.none := by
  induction d with
  | nil => rfl
  | cons e t ih =>
      simp only [List.map_cons, List.mem_cons, not_or] at h
      have h1 : e.1 ≠ k := fun hc => h.1 hc.symm
      simpa [lookupD, h1] using ih h.2

theorem lookupD_updateD_of_none (d1 d2 : Dict) (k : String)
    (h : lookupD d2 k = Option.none) :
    lookupD (updateD d1 d2) k = lookupD d1 k := by
  induction d2 generalizing d1 with
  | nil => rfl
  | cons e t ih =>
      obtain ⟨a, b⟩ := e
      by_cases ha : a = k
      · simp [lookupD, ha] at h
      · simp only [lookupD, if_neg ha] at h
        rw [updateD, ih _ h, lookupD_insertD, if_neg (fun hc : k = a => ha hc.symm)]

theorem lookupD_updateD_of_some (d1 d2 : Dict) (k : String) (v : PyVal)
    (h : lookupD d2 k = some v) (hn : NodupKeys d2) :
    lookupD (updateD d1 d2) k = some v := by
  induction d2 generalizing d1 with
  | nil => simp [lookupD] at h
  | cons e t ih =>
      obtain ⟨a, b⟩ := e
      have hn' : a ∉ t.map Prod.fst ∧ NodupKeys t := by
        simpa [NodupKeys] using hn
      by_cases ha : a = k
      · subst ha
        have h' : b = v := by simpa [lookupD] using h
        have ht : lookupD t a = Option.none :=
          lookupD_eq_none_of_not_mem t a hn'.1
        rw [updateD, lookupD_updateD_of_none _ _ _ ht, lookupD_insertD, if_pos rfl, h']
      · simp only [lookupD, if_neg ha] at h
        rw [updateD]
        exact ih (insertD d1 a b) h hn'.2

theorem mem_keys_insertD (d : Dict) (key : String) (v : PyVal) (a : String) :
    a ∈ (insertD d key v).map Prod.fst ↔ a ∈ d.map Prod.fst ∨ a = key := by
  induction d with
  | nil => simp [insertD]
  | cons e t ih =>
      obtain ⟨k, w⟩ := e
      by_cases hk : k = key
      · subst hk
        simp [insertD]
        tauto
      · simp [insertD, hk, ih]
        tauto

theorem nodupKeys_insertD (d : Dict) (key : String) (v : PyVal)
    (h : NodupKeys d) : NodupKeys (insertD d key v) := by
  induction d with
  | nil => simp [insertD, NodupKeys]
  | cons e t ih =>
      obtain ⟨k, w⟩ := e
      have h' : k ∉ t.map Prod.fst ∧ NodupKeys t := by
        simpa [NodupKeys] using h
      by_cases hk : k = key
      · subst hk
        simpa [insertD, NodupKeys] using h'
      · have ht := ih h'.2
        simp only [insertD, if_neg hk]
        simp only [NodupKeys, List.map_cons, List.nodup_cons]
        refine ⟨fun hc => ?_, ht⟩
        rcases (mem_keys_insertD t key v k).mp hc with hm | hm
        · exact h'.1 hm
        · exact hk hm

theorem nodupKeys_eraseD (d : Dict) (key : String)
    (h : NodupKeys d) : NodupKeys (eraseD d key) := by
  have hsub : List.Sublist ((eraseD d key).map Prod.fst) (d.map Prod.fst) :=
    List.Sublist.map Prod.fst (List.filter_sublist d)
  exact List.Nodup.sublist hsub h

theorem listenGo_stopped (run : WsConn → ConnOutcome → WsConn × List Act)
    (c : WsConn) (outs : List ConnOutcome) (h : c.state = some WsState.stopped) :
    listenGo run c outs = (c, []) := by
  cases outs with
  | nil => rfl
  | cons o rest => simp [listenGo, h]


theorem containsKey_renameWh (d : Dict) (k : String)
    (h1 : k ≠ "wh") (h2 : k ≠ "watthour") :
    containsKey (renameWh d) k = containsKey d k := by
  unfold renameWh
  cases hl : lookupD d "wh" with
  | none => rfl
  | some v =>
      simp [containsKey, lookupD_insertD, lookupD_eraseD, h1, h2]

theorem trigger_keys_ne (k : String) (hk : k ∈ UPDATE_TRIGGERS) :
    k ≠ "wh" ∧ k ≠ "watthour" := by
  simp only [UPDATE_TRIGGERS, List.mem_cons, List.mem_singleton] at hk
  rcases hk with rfl | rfl | rfl | rfl | rfl | rfl | h
  · exact ⟨by decide, by decide⟩
  · exact ⟨by decide, by decide⟩
  · exact ⟨by decide, by decide⟩
  · exact ⟨by decide, by decide⟩
  · exact ⟨by decide, by decide⟩
  · exact ⟨by decide, by decide⟩
  · simp at h

theorem update_status_data_status (resync : Dict → Dict) (ow : Owner)
    (payload : Dict) :
    (update_status resync ow (PushMsg.data payload)).1.status =
      updateD (preMergeStatus resync ow payload) (renameWh payload) := by
  unfold update_status preMergeStatus
  by_cases hc : UPDATE_TRIGGERS.any (fun k => containsKey (renameWh payload) k)
  · simp [hc]
  · simp [hc]

/-- Claim C4 (confirmed): every assignment through the `state` setter
invokes the registered callback exactly once, passing the connection
state signal, the new state unchanged and the currently stored error
reason, and leaves the stored error reason `None` afterwards. The
setter is identical in `websocket.py` and `__init__.py`, so `setState`
covers every state assignment either class performs. -/
theorem state_setter_contract (c : WsConn) (v : WsState) :
    (setState c v).2 = [Act.notify SIGNAL_CONNECTION_STATE v c.error_reason] ∧
    (setState c v).1.state = some v ∧
    (setState c v).1.error_reason = Option.none :=
  ⟨rfl, rfl, rfl⟩

/-- Whenever both `_ping` and `_pong` are set, `keepalive` raises an
uncaught `TypeError` from the comparison `time_delta < 0` (a `timedelta`
compared against an `int`), before reaching the ping-timeout handling or
the send. -/
theorem keepalive_both_timestamps_raise (c : WsConn) (now : Int)
    (send : SendOutcome) (p q : Int) (hp : c.ping = some p)
    (hq : c.pong = some q) :
    keepalive now send c = Except.error PyError.typeError := by
  simp [keepalive, hp, hq, pyLt]

/-- Claim C2 (code bug): in the claim's stale-pong scenario (pong at 0,
ping at 10) and equally in its fresh-pong scenario (ping at 0, pong at
10), `keepalive` raises an uncaught `TypeError` from the comparison
`time_delta < 0` (a `timedelta` compared against an `int`), instead of
transitioning to disconnected with "No pong reply" (stale case) or
sending a ping without a state change (fresh case). -/
theorem keepalive_timedelta_comparison_raises :
    keepalive 42 SendOutcome.ok
      { freshConn with
        state := some WsState.connected,
        ping := some 10, pong := some 0 } = Except.error PyError.typeError ∧
    keepalive 42 SendOutcome.ok
      { freshConn with
        state := some WsState.connected,
        ping := some 0, pong := some 10 } = Except.error PyError.typeError :=
  ⟨rfl, rfl⟩

/-- Claim C9 (confirmed): the validation conditions
`mode != "fast" or mode != "eco"` in the legacy `set_charge_mode` and
`mode != "Normal" or mode != "Eco"` in the legacy `divert_mode` hold for
every string, so both functions raise `ValueError` for every mode —
including the documented valid values — and issue no HTTP request. -/
theorem mode_validation_always_raises (url mode : String) (response : Dict) :
    set_charge_mode url mode response = ([], Except.error PyError.valueError) ∧
    divert_mode url mode response = ([], Except.error PyError.valueError) := by
  have h1 : mode ≠ "fast" ∨ mode ≠ "eco" := by
    rcases eq_or_ne mode "fast" with h | h
    · subst h
      right
      decide
    · exact Or.inl h
  have h2 : mode ≠ "Normal" ∨ mode ≠ "Eco" := by
    rcases eq_or_ne mode "Normal" with h | h
    · subst h
      right
      decide
    · exact Or.inl h
  constructor
  · unfold set_charge_mode
    rw [if_pos h1]
  · unfold divert_mode
    rw [if_pos h2]

/-- Claim C10 (confirmed): when the raw `temp2`/`temp3` reading is falsy
(in particular the integer 0), `rtc_temperature` and `ir_temperature`
return `None` instead of a temperature; and `ambient_temperature` takes
the `temp1 / 10` fallback whenever `temp` is absent or equal to 0. -/
theorem falsy_temperature_readings :
    (∀ st : Dict, ∀ v : PyVal, lookupD st "temp2" = some v → pyTruthy v = false →
      rtc_temperature st = Except.ok Option.none) ∧
    (∀ st : Dict, ∀ v : PyVal, lookupD st "temp3" = some v → pyTruthy v = false →
      ir_temperature st = Except.ok Option.none) ∧
    (∀ st : Dict, lookupD st "temp" = Option.none →
      ambient_temperature st = ambientFallback st) ∧
    (∀ st : Dict, lookupD st "temp" = some (PyVal.int 0) →
      ambient_temperature st = ambientFallback st) := by
  refine ⟨fun st v h ht => ?_, fun st v h ht => ?_, fun st h => ?_, fun st h => ?_⟩
  · simp [rtc_temperature, h, ht]
  · simp [ir_temperature, h, ht]
  · simp [ambient_temperature, h]
  · simp [ambient_temperature, h, pyTruthy]

/-- Witness for C10 at concrete statuses: `temp2 = temp3 = 0` yields
`None` for both sensor properties, and both a missing `temp` and
`temp = 0` take the `temp1` fallback. -/
theorem falsy_temperature_readings_witness :
    rtc_temperature [("temp2", PyVal.int 0), ("temp3", PyVal.int 0)] =
      Except.ok Option.none ∧
    ir_temperature [("temp2", PyVal.int 0), ("temp3", PyVal.int 0)] =
      Except.ok Option.none ∧
    ambient_temperature [("temp1", PyVal.int 250)] =
      ambientFallback [("temp1", PyVal.int 250)] ∧
    ambient_temperature [("temp", PyVal.int 0), ("temp1", PyVal.int 250)] =
      ambientFallback [("temp", PyVal.int 0), ("temp1", PyVal.int 250)] :=
  ⟨falsy_temperature_readings.1 _ (PyVal.int 0) (by decide) (by decide),
   falsy_temperature_readings.2.1 _ (PyVal.int 0) (by decide) (by decide),
   falsy_temperature_readings.2.2.1 _ (by decide),
   falsy_temperature_readings.2.2.2 _ (by decide)⟩

/-- Claim C6 (confirmed): a 401 `ClientResponseError` at the websocket
handshake ends with the state stopped; the callback receives exactly the
two notifications of a `running` call — starting with no reason, then
stopped carrying "Authorization failure" — and the stored reason is
cleared afterwards. Both copies of the class behave identically here.
The hypothesis `c.error_reason = none` holds whenever `running` is
entered, since the setter clears the reason on every assignment and the
constructor initialises it to `None`. -/
theorem auth_failure_stops_with_reason (now : Int) (c : WsConn)
    (h : c.error_reason = Option.none) :
    (running now c (ConnOutcome.respError 401)).1.state = some WsState.stopped ∧
    (running now c (ConnOutcome.respError 401)).1.error_reason = Option.none ∧
    (running now c (ConnOutcome.respError 401)).2 =
      [Act.notify SIGNAL_CONNECTION_STATE WsState.starting Option.none,
       Act.notify SIGNAL_CONNECTION_STATE WsState.stopped (some Reason.authFailure)] ∧
    (runningLegacy c (ConnOutcome.respError 401)).1.state = some WsState.stopped ∧
    (runningLegacy c (ConnOutcome.respError 401)).2 =
      [Act.notify SIGNAL_CONNECTION_STATE WsState.starting Option.none,
       Act.notify SIGNAL_CONNECTION_STATE WsState.stopped (some Reason.authFailure)] ∧
    reasonStr Reason.authFailure = some ERROR_AUTH_FAILURE := by
  refine ⟨?_, ?_, ?_, ?_, ?_, rfl⟩ <;>
    simp [running, runningLegacy, respErrorBranch, respErrorBranchLegacy, setState, h]

/-- Witness for C6: the freshly constructed connection object. -/
theorem auth_failure_stops_with_reason_witness :
    (running 0 freshConn (ConnOutcome.respError 401)).1.state =
      some WsState.stopped ∧
    (running 0 freshConn (ConnOutcome.respError 401)).2 =
      [Act.notify SIGNAL_CONNECTION_STATE WsState.starting Option.none,
       Act.notify SIGNAL_CONNECTION_STATE WsState.stopped (some Reason.authFailure)] :=
  ⟨(auth_failure_stops_with_reason 0 freshConn rfl).1,
   (auth_failure_stops_with_reason 0 freshConn rfl).2.2.1⟩

/-- Claim C7 (confirmed): stopped is terminal. The `listen` loop of both
copies observes a stopped state at its top-level condition and exits
without calling `running` again, and every transition performed in
`running`'s failure and exit handlers is either guarded by a
`state != STATE_STOPPED` check or itself assigns stopped, so a stopped
state is never overwritten. -/
theorem stopped_is_terminal (c : WsConn) (outs : List ConnOutcome) (s : Nat)
    (h : c.state = some WsState.stopped) :
    listenGo (running 0) c outs = (c, []) ∧
    listenGo runningLegacy c outs = (c, []) ∧
    (connErrorBranch c).1.state = some WsState.stopped ∧
    (connErrorBranchLegacy c).1.state = some WsState.stopped ∧
    (exitBranch c).1.state = some WsState.stopped ∧
    (respErrorBranch s c).1.state = some WsState.stopped ∧
    (respErrorBranchLegacy s c).1.state = some WsState.stopped ∧
    (otherExcBranch c).1.state = some WsState.stopped ∧
    (otherExcBranchLegacy c).1.state = some WsState.stopped := by
  refine ⟨listenGo_stopped _ c outs h, listenGo_stopped _ c outs h, ?_, ?_, ?_, ?_, ?_, ?_, ?_⟩
  · unfold connErrorBranch
    split_ifs <;> simp_all [setState]
  · unfold connErrorBranchLegacy
    split_ifs <;> simp_all [setState]
  · unfold exitBranch
    split_ifs <;> simp_all [setState]
  · unfold respErrorBranch
    split_ifs <;> simp [setState]
  · unfold respErrorBranchLegacy
    split_ifs <;> simp [setState]
  · unfold otherExcBranch
    split_ifs <;> simp_all [setState]
  · unfold otherExcBranchLegacy
    split_ifs <;> simp_all [setState]

/-- Witness for C7: a stopped connection object, a non-empty outcome
script and a concrete non-401 status. -/
theorem stopped_is_terminal_witness :
    listenGo (running 0) { freshConn with state := some WsState.stopped }
      [ConnOutcome.connError, ConnOutcome.session []] =
      ({ freshConn with state := some WsState.stopped }, []) ∧
    (connErrorBranch { freshConn with state := some WsState.stopped }).1.state =
      some WsState.stopped ∧
    (exitBranch { freshConn with state := some WsState.stopped }).1.state =
      some WsState.stopped :=
  ⟨(stopped_is_terminal _ _ 500 rfl).1,
   (stopped_is_terminal { freshConn with state := some WsState.stopped } [] 500 rfl).2.2.1,
   (stopped_is_terminal { freshConn with state := some WsState.stopped } [] 500 rfl).2.2.2.2.1⟩

/-- Claim C1, counterexample: starting from `failed_attempts = 0`, the
delay scheduled on the first retryable connection failure is 15 seconds
(`2 ** (0 - 1) * 30` is the float `0.5 * 30`, computed before the
counter is incremented) in both copies of the class — not the 30 seconds
the claim's formula `min(2^(n-1)*30, 300)` yields for `n = 1`. -/
theorem first_backoff_delay_counterexample :
    delaysOf (listenStart (running 0) freshConn [ConnOutcome.connError]).2 = [15] ∧
    delaysOf (listenStart runningLegacy freshConn [ConnOutcome.connError]).2 = [15] ∧
    (15 : Rat) ≠ min ((2 : Rat) ^ (1 - 1) * 30) 300 := by
  have hm : min ((2 : Rat) ^ (1 - 1) * 30) 300 = 30 := by
    rw [min_eq_left] <;> norm_num
  refine ⟨?_, ?_, by rw [hm]; norm_num⟩ <;>
    norm_num +decide [listenStart, listenGo, running, runningLegacy, connErrorBranch,
      connErrorBranchLegacy, setState, freshConn, delaysOf, pyPow2, MAX_FAILED_ATTEMPTS,
      inf_eq_min, min_def, Int.toNat]

/-- Claim C1, amended: for a run of the reconnect loop starting with
`failed_attempts = 0`, the delay scheduled on the n-th consecutive
retryable failure is `min(2^(n-2)*30, 300)` — concretely 15, 30, 60,
120, 240, 300 seconds — because the exponent is computed from the
counter before it is incremented; three consecutive
`ClientConnectionError`s leave `failed_attempts = 3` with delays 15s,
30s, 60s. The sequence is cut off by the retry ceiling: after six
delays (`websocket.py`, ceiling test `>`) or five (`__init__.py`,
ceiling test `>=`) the next failure stops the loop. A successful
connect resets the counter to 0. -/
theorem backoff_delay_sequence :
    delaysOf (listenStart (running 0) freshConn
      (List.replicate 3 ConnOutcome.connError)).2 = [15, 30, 60] ∧
    (listenStart (running 0) freshConn
      (List.replicate 3 ConnOutcome.connError)).1.failed_attempts = 3 ∧
    (listenStart (running 0) freshConn
      (List.replicate 3 ConnOutcome.connError)).1.state = some WsState.disconnected ∧
    delaysOf (listenStart (running 0) freshConn
      (List.replicate 7 ConnOutcome.connError)).2 = [15, 30, 60, 120, 240, 300] ∧
    (listenStart (running 0) freshConn
      (List.replicate 7 ConnOutcome.connError)).1.state = some WsState.stopped ∧
    delaysOf (listenStart runningLegacy freshConn
      (List.replicate 6 ConnOutcome.connError)).2 = [15, 30, 60, 120, 240] ∧
    (listenStart runningLegacy freshConn
      (List.replicate 6 ConnOutcome.connError)).1.state = some WsState.stopped ∧
    (running 0 { freshConn with failed_attempts := 4 }
      (ConnOutcome.session [])).1.failed_attempts = 0 := by
  refine ⟨?_, ?_, ?_, ?_, ?_, ?_, ?_, ?_⟩ <;>
    norm_num +decide [listenStart, listenGo, running, runningLegacy, connErrorBranch,
      connErrorBranchLegacy, setState, freshConn, delaysOf, pyPow2, MAX_FAILED_ATTEMPTS,
      List.replicate, inf_eq_min, min_def, Int.toNat, msgLoop, exitBranch]

/-- Claim C5, counterexample: in `websocket.py` (ceiling test
`failed_attempts > MAX_FAILED_ATTEMPTS`), a retryable failure arriving
with `failed_attempts = 5` does not stop: it schedules one more retry
with a 300-second delay, incrementing the counter to 6. -/
theorem retry_ceiling_counterexample :
    (running 0 { freshConn with
        state := some WsState.connected, failed_attempts := 5 }
      ConnOutcome.connError).1.state = some WsState.disconnected ∧
    (running 0 { freshConn with
        state := some WsState.connected, failed_attempts := 5 }
      ConnOutcome.connError).1.failed_attempts = 6 ∧
    Act.sleep 300 ∈ (running 0 { freshConn with
        state := some WsState.connected, failed_attempts := 5 }
      ConnOutcome.connError).2 := by
  refine ⟨?_, ?_, ?_⟩ <;>
    norm_num +decide [running, connErrorBranch, setState, freshConn, pyPow2,
      MAX_FAILED_ATTEMPTS, inf_eq_min, min_def, Int.toNat]

/-- Claim C5, amended: in the legacy `__init__.py` copy (`>=`), once
`failed_attempts` has reached 5 the next retryable failure transitions
directly to stopped with reason "Too many retries", schedules no delay,
and the listen loop performs no further retry. In `websocket.py` (`>`)
the same holds only once `failed_attempts` exceeds 5; at exactly 5 one
further retry with a 300-second delay is scheduled. -/
theorem retry_ceiling_behavior (c : WsConn) :
    (5 ≤ c.failed_attempts →
      (runningLegacy c ConnOutcome.connError).1.state = some WsState.stopped ∧
      Act.notify SIGNAL_CONNECTION_STATE WsState.stopped (some Reason.tooManyRetries) ∈
        (runningLegacy c ConnOutcome.connError).2 ∧
      (∀ q : Rat, Act.sleep q ∉ (runningLegacy c ConnOutcome.connError).2) ∧
      (∀ outs : List ConnOutcome,
        listenGo runningLegacy (runningLegacy c ConnOutcome.connError).1 outs =
          ((runningLegacy c ConnOutcome.connError).1, []))) ∧
    (6 ≤ c.failed_attempts →
      (running 0 c ConnOutcome.connError).1.state = some WsState.stopped ∧
      Act.notify SIGNAL_CONNECTION_STATE WsState.stopped (some Reason.tooManyRetries) ∈
        (running 0 c ConnOutcome.connError).2 ∧
      (∀ q : Rat, Act.sleep q ∉ (running 0 c ConnOutcome.connError).2) ∧
      (∀ outs : List ConnOutcome,
        listenGo (running 0) (running 0 c ConnOutcome.connError).1 outs =
          ((running 0 c ConnOutcome.connError).1, []))) ∧
    (c.failed_attempts = 5 →
      (running 0 c ConnOutcome.connError).1.state = some WsState.disconnected ∧
      (running 0 c ConnOutcome.connError).1.failed_attempts = 6 ∧
      Act.sleep 300 ∈ (running 0 c ConnOutcome.connError).2) := by
  refine ⟨fun h5 => ?_, fun h6 => ?_, fun h5 => ?_⟩
  · have hstop : (runningLegacy c ConnOutcome.connError).1.state = some WsState.stopped ∧
        (runningLegacy c ConnOutcome.connError).2 =
          [Act.notify SIGNAL_CONNECTION_STATE WsState.starting c.error_reason,
           Act.notify SIGNAL_CONNECTION_STATE WsState.stopped (some Reason.tooManyRetries)] := by
      constructor <;>
        simp [runningLegacy, connErrorBranchLegacy, setState, MAX_FAILED_ATTEMPTS, h5]
    refine ⟨hstop.1, ?_, ?_, fun outs => listenGo_stopped _ _ outs hstop.1⟩
    · rw [hstop.2]
      simp
    · intro q
      rw [hstop.2]
      simp
  · have hlt : MAX_FAILED_ATTEMPTS < c.failed_attempts := h6
    have hstop : (running 0 c ConnOutcome.connError).1.state = some WsState.stopped ∧
        (running 0 c ConnOutcome.connError).2 =
          [Act.notify SIGNAL_CONNECTION_STATE WsState.starting c.error_reason,
           Act.notify SIGNAL_CONNECTION_STATE WsState.stopped (some Reason.tooManyRetries)] := by
      constructor <;>
        simp [running, connErrorBranch, setState, hlt]
    refine ⟨hstop.1, ?_, ?_, fun outs => listenGo_stopped _ _ outs hstop.1⟩
    · rw [hstop.2]
      simp
    · intro q
      rw [hstop.2]
      simp
  · refine ⟨?_, ?_, ?_⟩ <;>
      norm_num +decide [running, connErrorBranch, setState, pyPow2,
        MAX_FAILED_ATTEMPTS, inf_eq_min, min_def, Int.toNat, h5]

/-- Witness for C5 (amended) at concrete counter values 5 (legacy stop),
6 (websocket.py stop) and 5 (websocket.py retry). -/
theorem retry_ceiling_behavior_witness :
    (runningLegacy { freshConn with
        state := some WsState.connected, failed_attempts := 5 }
      ConnOutcome.connError).1.state = some WsState.stopped ∧
    (running 0 { freshConn with
        state := some WsState.connected, failed_attempts := 6 }
      ConnOutcome.connError).1.state = some WsState.stopped ∧
    (running 0 { freshConn with
        state := some WsState.connected, failed_attempts := 5 }
      ConnOutcome.connError).1.state = some WsState.disconnected :=
  ⟨((retry_ceiling_behavior _).1 (by norm_num)).1,
   ((retry_ceiling_behavior _).2.1 (by norm_num)).1,
   ((retry_ceiling_behavior _).2.2 rfl).1⟩

/-- Claim C3 (confirmed): when a push data payload contains at least one
`UPDATE_TRIGGERS` key, `_update_status` issues exactly one full REST
resync (one `update()` call), and it happens before the payload is
merged into the cached status: the action trace is exactly one resync,
then the merge, then (only if registered) the owner callback. -/
theorem resync_trigger_exactly_once (resync : Dict → Dict) (ow : Owner)
    (payload : Dict) (k : String) (hk : k ∈ UPDATE_TRIGGERS)
    (hck : containsKey payload k = true) :
    (update_status resync ow (PushMsg.data payload)).2 =
      OwnerAct.resync :: OwnerAct.merge (renameWh payload) ::
        (if ow.hasCallback then [OwnerAct.ownerCallback] else []) := by
  have hne := trigger_keys_ne k hk
  have hany : UPDATE_TRIGGERS.any (fun k2 => containsKey (renameWh payload) k2) = true := by
    refine List.any_eq_true.mpr ⟨k, hk, ?_⟩
    rw [containsKey_renameWh payload k hne.1 hne.2]
    exact hck
  simp [update_status, hany]

/-- Witness for C3: a payload carrying only `config_version`, merged by
an owner with no registered callback, produces exactly the trace
resync-then-merge. -/
theorem resync_trigger_exactly_once_witness :
    (update_status id { status := [], ws_listening := false, hasCallback := false }
      (PushMsg.data [("config_version", PyVal.int 2)])).2 =
      [OwnerAct.resync, OwnerAct.merge [("config_version", PyVal.int 2)]] := by
  have h := resync_trigger_exactly_once id
    { status := [], ws_listening := false, hasCallback := false }
    [("config_version", PyVal.int 2)] "config_version" (by decide) (by decide)
  simpa [renameWh, lookupD] using h

/-- Claim C8, counterexample: when the cached status already contains a
`wh` key (as a raw REST `/status` response may), merging a payload with
`"wh": 100` leaves that stale `wh` binding in the cached status (the
rename only removes `wh` from the payload), so the post-merge status
does contain `wh`, contradicting the claim. -/
theorem wh_key_counterexample :
    containsKey (update_status id
      { status := [("wh", PyVal.int 1)], ws_listening := false, hasCallback := false }
      (PushMsg.data [("wh", PyVal.int 100)])).1.status "wh" = true ∧
    lookupD (update_status id
      { status := [("wh", PyVal.int 1)], ws_listening := false, hasCallback := false }
      (PushMsg.data [("wh", PyVal.int 100)])).1.status "watthour" = some (PyVal.int 100) ∧
    lookupD (update_status id
      { status := [("wh", PyVal.int 1)], ws_listening := false, hasCallback := false }
      (PushMsg.data [("wh", PyVal.int 100)])).1.status "wh" = some (PyVal.int 1) := by
  refine ⟨?_, ?_, ?_⟩ <;> decide

/-- Claim C8, amended: merging a payload whose `wh` key holds `v` always
leaves `watthour` bound to `v` in the cached status, and the merged
payload itself never contains `wh` — so `wh` is absent from the merged
status exactly when it was absent from the cached status at merge time
(`preMergeStatus`); every other payload key is shallow-merged per key
(payload keys overwrite, keys absent from the payload keep the cached
binding). -/
theorem wh_rename_merge (resync : Dict → Dict) (ow : Owner) (data : Dict)
    (v : PyVal) (hnd : NodupKeys data) (hwh : lookupD data "wh" = some v) :
    lookupD (update_status resync ow (PushMsg.data data)).1.status "watthour" = some v ∧
    lookupD (renameWh data) "wh" = Option.none ∧
    lookupD (update_status resync ow (PushMsg.data data)).1.status "wh" =
      lookupD (preMergeStatus resync ow data) "wh" ∧
    (∀ k : String, k ≠ "wh" → k ≠ "watthour" → containsKey data k = true →
      lookupD (update_status resync ow (PushMsg.data data)).1.status k =
        lookupD data k) ∧
    (∀ k : String, k ≠ "wh" → k ≠ "watthour" → containsKey data k = false →
      lookupD (update_status resync ow (PushMsg.data data)).1.status k =
        lookupD (preMergeStatus resync ow data) k) := by
  have hrn : renameWh data = insertD (eraseD data "wh") "watthour" v := by
    simp [renameWh, hwh]
  have hst := update_status_data_status resync ow data
  have hnr : NodupKeys (renameWh data) := by
    rw [hrn]
    exact nodupKeys_insertD _ _ _ (nodupKeys_eraseD _ _ hnd)
  have hlw : lookupD (renameWh data) "watthour" = some v := by
    rw [hrn, lookupD_insertD, if_pos rfl]
  have hlwh : lookupD (renameWh data) "wh" = Option.none := by
    rw [hrn, lookupD_insertD, if_neg (by decide), lookupD_eraseD, if_pos rfl]
  refine ⟨?_, hlwh, ?_, ?_, ?_⟩
  · rw [hst]
    exact lookupD_updateD_of_some _ _ _ _ hlw hnr
  · rw [hst]
    exact lookupD_updateD_of_none _ _ _ hlwh
  · intro k hk1 hk2 hck
    obtain ⟨w, hw⟩ : ∃ w, lookupD data k = some w := by
      cases hl : lookupD data k with
      | none => simp [containsKey, hl] at hck
      | some w => exact ⟨w, rfl⟩
    have hlk : lookupD (renameWh data) k = some w := by
      rw [hrn, lookupD_insertD, if_neg hk2, lookupD_eraseD, if_neg hk1, hw]
    rw [hst, lookupD_updateD_of_some _ _ _ _ hlk hnr, hw]
  · intro k hk1 hk2 hck
    have hnone : lookupD data k = Option.none := by
      cases hl : lookupD data k with
      | none => rfl
      | some w => simp [containsKey, hl] at hck
    have hlk : lookupD (renameWh data) k = Option.none := by
      rw [hrn, lookupD_insertD, if_neg hk2, lookupD_eraseD, if_neg hk1, hnone]
    rw [hst, lookupD_updateD_of_none _ _ _ hlk]

/-- Witness for C8 (amended) at a concrete merge: status `amp = 7`,
payload `wh = 100`; afterwards `watthour = 100`, `wh` is absent (as it
was absent from the cached status), and `amp` keeps its cached value. -/
theorem wh_rename_merge_witness :
    lookupD (update_status id
      { status := [("amp", PyVal.int 7)], ws_listening := false, hasCallback := false }
      (PushMsg.data [("wh", PyVal.int 100)])).1.status "watthour" =
      some (PyVal.int 100) ∧
    lookupD (update_status id
      { status := [("amp", PyVal.int 7)], ws_listening := false, hasCallback := false }
      (PushMsg.data [("wh", PyVal.int 100)])).1.status "wh" =
      lookupD (preMergeStatus id
        { status := [("amp", PyVal.int 7)], ws_listening := false, hasCallback := false }
        [("wh", PyVal.int 100)]) "wh" ∧
    lookupD (update_status id
      { status := [("amp", PyVal.int 7)], ws_listening := false, hasCallback := false }
      (PushMsg.data [("wh", PyVal.int 100)])).1.status "amp" =
      lookupD (preMergeStatus id
        { status := [("amp", PyVal.int 7)], ws_listening := false, hasCallback := false }
        [("wh", PyVal.int 100)]) "amp" :=
  ⟨(wh_rename_merge id
      { status := [("amp", PyVal.int 7)], ws_listening := false, hasCallback := false }
      [("wh", PyVal.int 100)] (PyVal.int 100) (by decide) (by decide)).1,
   (wh_rename_merge id
      { status := [("amp", PyVal.int 7)], ws_listening := false, hasCallback := false }
      [("wh", PyVal.int 100)] (PyVal.int 100) (by decide) (by decide)).2.2.1,
   (wh_rename_merge id
      { status := [("amp", PyVal.int 7)], ws_listening := false, hasCallback := false }
      [("wh", PyVal.int 100)] (PyVal.int 100) (by decide) (by decide)).2.2.2.2 "amp"
      (by decide) (by decide) (by decide)⟩
